import Mathlib

/-!
Shallow embedding of the job-search validation pipeline
(`config.py`, `agent.py`, `validation_agent.py`).

Strings are modelled as Lean `String` / `List Char`; Python's unbounded
`int` as `Int` (`Nat` where the source can only produce non-negative
values); a Python dict parsed from model JSON as a structure of `Option`
fields (absent key = `none`); the nondeterministic language-model call as
an explicit response argument (`AIResponse` / `MatchResponse`), with the
`failure` constructor standing for a raised exception or a JSON parse
error (both are caught by the same `except` block in the source).
-/

namespace JobSearch

/-- Python `needle` is a prefix of `hay` (char-wise). -/
def startsWithList : List Char → List Char → Bool
  | [], _ => true
  | _ :: _, [] => false
  | a :: as, b :: bs => a == b && startsWithList as bs

/-- Python `needle in hay` substring test over char lists. -/
def containsSub (needle : List Char) : List Char → Bool
  | [] => needle.isEmpty
  | c :: t => startsWithList needle (c :: t) || containsSub needle t

/-- Python `needle in hay` on strings. -/
def strIn (needle hay : String) : Bool :=
  containsSub needle.toList hay.toList

/-- Python `str.lower()` (ASCII; all strings compared in the source are ASCII). -/
def pyLower (s : String) : String :=
  ⟨s.toList.map Char.toLower⟩

/-- Python regex `\s` (ASCII part: space, tab, newline, carriage return,
vertical tab, form feed). -/
def pyIsSpace (c : Char) : Bool :=
  c == ' ' || c == '\t' || c == '\n' || c == '\r' || c == '\x0b' || c == '\x0c'

/-- Numeric value of a digit run, as Python `int(...)` of the matched group. -/
def digitsToNat (ds : List Char) : Nat :=
  ds.foldl (fun acc c => acc * 10 + (c.toNat - '0'.toNat)) 0

/-! ### Config.is_valid_job_url — the URL regex of `config.py`

The pattern is
`^https?://(?:(?:[A-Z0-9](?:[A-Z0-9-]{0,61}[A-Z0-9])?\.)+[A-Z]{2,6}\.?|localhost|\d{1,3}\.\d{1,3}\.\d{1,3}\.\d{1,3})(?::\d+)?(?:/?|[/?]\S+)$`
with `re.IGNORECASE`.  The decomposition into host / port / path is
deterministic (no host character is `:`, `/` or `?`), so the regex is
embedded as a direct scanner.  Python `$` also matches just before one
trailing newline; no pattern element consumes `\n`, so a single trailing
newline is chopped first. -/

/-- One DNS label: `[A-Z0-9](?:[A-Z0-9-]{0,61}[A-Z0-9])?` (ignore-case). -/
def labelOK (l : List Char) : Bool :=
  !l.isEmpty && l.length ≤ 63 &&
  (match l.head? with | some c => c.isAlphanum | none => false) &&
  (match l.getLast? with | some c => c.isAlphanum | none => false) &&
  l.all (fun c => c.isAlphanum || c == '-')

/-- Top-level domain: `[A-Z]{2,6}` (ignore-case). -/
def tldOK (l : List Char) : Bool :=
  2 ≤ l.length && l.length ≤ 6 && l.all Char.isAlpha

/-- Split a char list on `.` (keeping empty components, like the unique
decomposition of the host into dot-separated parts). -/
def splitOnDot : List Char → List (List Char)
  | [] => [[]]
  | c :: t =>
    let r := splitOnDot t
    if c == '.' then [] :: r
    else
      match r with
      | [] => [[c]]
      | p :: ps => (c :: p) :: ps

/-- Host alternative `(?:LABEL\.)+TLD\.?`. -/
def domainOK (host : List Char) : Bool :=
  let parts := splitOnDot host
  let parts := if parts.getLast? == some [] then parts.dropLast else parts
  parts.length ≥ 2 && parts.dropLast.all labelOK &&
  (match parts.getLast? with | some t => tldOK t | none => false)

/-- Host alternative `\d{1,3}\.\d{1,3}\.\d{1,3}\.\d{1,3}`. -/
def ipOK (host : List Char) : Bool :=
  let parts := splitOnDot host
  parts.length == 4 &&
  parts.all (fun p => 1 ≤ p.length && p.length ≤ 3 && p.all Char.isDigit)

def hostOK (host : List Char) : Bool :=
  domainOK host || host.map Char.toLower == "localhost".toList || ipOK host

/-- Tail alternative `(?:/?|[/?]\S+)` up to end of string. -/
def pathOK : List Char → Bool
  | [] => true
  | ['/'] => true
  | c :: rest => (c == '/' || c == '?') && !rest.isEmpty && rest.all (fun d => !pyIsSpace d)

/-- Tail `(?::\d+)?(?:/?|[/?]\S+)` up to end of string. -/
def portPathOK : List Char → Bool
  | ':' :: rest =>
    let ds := rest.takeWhile Char.isDigit
    let rest2 := rest.dropWhile Char.isDigit
    !ds.isEmpty && pathOK rest2
  | cs => pathOK cs

/-- Split the part after the scheme at the first `:`/`/`/`?` (host cannot
contain these characters). -/
def splitHost : List Char → List Char × List Char
  | [] => ([], [])
  | c :: t =>
    if c == ':' || c == '/' || c == '?' then ([], c :: t)
    else
      let p := splitHost t
      (c :: p.1, p.2)

def afterScheme (rest : List Char) : Bool :=
  let p := splitHost rest
  hostOK p.1 && portPathOK p.2

/-- Whether the URL regex of `Config.is_valid_job_url` matches. -/
def urlRegexMatch (url : String) : Bool :=
  let cs := url.toList
  let cs := match cs.getLast? with
    | some c => if c == '\n' then cs.dropLast else cs
    | none => cs
  if (cs.take 8).map Char.toLower == "https://".toList then afterScheme (cs.drop 8)
  else if (cs.take 7).map Char.toLower == "http://".toList then afterScheme (cs.drop 7)
  else false

/-- Embedding of `Config.is_valid_job_url` (config.py): well-formed http(s) URL that
contains at least one job-related keyword. -/
def is_valid_job_url (url : String) : Bool :=
  if url == "" || url == "N/A" then false
  else if !urlRegexMatch url then false
  else
    let job_keywords : List String :=
      ["job", "career", "position", "vacancy", "opening", "hiring", "apply"]
    job_keywords.any (fun k => strIn k (pyLower url))

/-- The list `Config.INDIAN_CITIES` (config.py). -/
def INDIAN_CITIES : List String :=
  ["Bangalore", "Mumbai", "Pune", "Hyderabad", "Chennai",
   "Delhi", "NCR", "Gurugram", "Noida", "Kolkata",
   "Ahmedabad", "Kochi", "Indore", "Jaipur", "Chandigarh"]

/-- Embedding of `Config.is_indian_location` (config.py). -/
def is_indian_location (location_text : String) : Bool :=
  if location_text == "" then false
  else
    let location_lower := pyLower location_text
    if strIn "india" location_lower then true
    else INDIAN_CITIES.any (fun city => strIn (pyLower city) location_lower)

/-! ### Config.extract_experience_years

Regex searches `(\d+)\s*-\s*(\d+)\s*(?:years?|yrs?)` and
`(\d+)\+?\s*(?:years?|yrs?)` over the lowercased text.  At any start
position the greedy pieces are forced (a shorter digit group leaves a digit
where `-`/`+`/`y` is required), so `re.search` is embedded as a leftmost
scan with a deterministic matcher at each position. -/

/-- Try the range pattern `(\d+)\s*-\s*(\d+)\s*(?:years?|yrs?)` at this position. -/
def matchRangeAt (cs : List Char) : Option (Nat × Nat) :=
  let d1 := cs.takeWhile Char.isDigit
  let r1 := cs.dropWhile Char.isDigit
  if d1.isEmpty then none
  else
    match r1.dropWhile pyIsSpace with
    | '-' :: r3 =>
      let r4 := r3.dropWhile pyIsSpace
      let d2 := r4.takeWhile Char.isDigit
      let r5 := r4.dropWhile Char.isDigit
      if d2.isEmpty then none
      else
        let r6 := r5.dropWhile pyIsSpace
        if startsWithList "year".toList r6 || startsWithList "yr".toList r6 then
          some (digitsToNat d1, digitsToNat d2)
        else none
    | _ => none

def searchRange : List Char → Option (Nat × Nat)
  | [] => none
  | c :: t =>
    match matchRangeAt (c :: t) with
    | some p => some p
    | none => searchRange t

/-- Try the single-value pattern `(\d+)\+?\s*(?:years?|yrs?)` at this position. -/
def matchPlusAt (cs : List Char) : Option Nat :=
  let d1 := cs.takeWhile Char.isDigit
  let r1 := cs.dropWhile Char.isDigit
  if d1.isEmpty then none
  else
    let r2 := match r1 with | '+' :: t => t | other => other
    let r3 := r2.dropWhile pyIsSpace
    if startsWithList "year".toList r3 || startsWithList "yr".toList r3 then
      some (digitsToNat d1)
    else none

def searchPlus : List Char → Option Nat
  | [] => none
  | c :: t =>
    match matchPlusAt (c :: t) with
    | some n => some n
    | none => searchPlus t

/-- Embedding of `Config.extract_experience_years` (config.py): `(min, max)` years parsed
from free text, first-matching rule wins. -/
def extract_experience_years (text : String) : Nat × Nat :=
  if text == "" then (0, 0)
  else
    let low := (pyLower text).toList
    match searchRange low with
    | some p => p
    | none =>
      match searchPlus low with
      | some n => (n, n + 5)
      | none =>
        if ["fresher", "entry level", "graduate"].any (fun t => containsSub t.toList low) then
          (0, 2)
        else (0, 0)

/-! ### Data model

`MatchAnalysis` is the dict produced by `JobSearchAgent.analyze_job_match`
(agent.py); `AIVerdict` the dict produced by
`ValidationAgent.verify_with_ai` (validation_agent.py); the `Raw…`
structures are the fields of the parsed model JSON that the code reads,
each `Option` (absent key = `none`).  A `Job` is the candidate dict built
by `search_all_companies` (agent.py), whose `match_analysis` and
`validation` keys may be absent (`none`). -/

structure MatchAnalysis where
  match_score : Int
  matching_skills : List String
  missing_skills : List String
  required_experience : String
  experience_match : Bool
  location_india : Bool
  recommendation : String
  error : Option String
deriving DecidableEq

structure RawMatchAnalysis where
  match_score : Option Int
  matching_skills : Option (List String)
  missing_skills : Option (List String)
  required_experience : Option String
  experience_match : Option Bool
  location_india : Option Bool
  recommendation : Option String
deriving DecidableEq

/-- Outcome of the model call in `analyze_job_match`: `failure` stands for a
raised exception or an unparsable response (same `except` handler),
`success` for a parsed JSON object. -/
inductive MatchResponse where
  | failure (e : String)
  | success (r : RawMatchAnalysis)
deriving DecidableEq

structure ValidationResult where
  is_valid : Bool
  issues : List String
  quality_score : Int
  corrections : List (String × String)
deriving DecidableEq

structure AIVerdict where
  is_valid_job : Bool
  matches_role : Bool
  matches_company : Bool
  is_india_location : Bool
  experience_appropriate : Bool
  is_direct_link : Bool
  confidence_score : Int
  experience_gap : Int
  required_experience_range : Option String
  reasoning : Option String
  error : Option String
deriving DecidableEq

structure RawAIVerdict where
  is_valid_job : Option Bool
  matches_role : Option Bool
  matches_company : Option Bool
  is_india_location : Option Bool
  experience_appropriate : Option Bool
  is_direct_link : Option Bool
  confidence_score : Option Int
  experience_gap : Option Int
  required_experience_range : Option String
  reasoning : Option String
deriving DecidableEq

/-- Outcome of the model call in `verify_with_ai`. -/
inductive AIResponse where
  | failure (e : String)
  | success (r : RawAIVerdict)
deriving DecidableEq

/-- The combined dict stored at `job['validation']` by `validate_job_batch`:
`{**basic_validation, **ai_validation, "final_valid": …}` (the two parts
have disjoint keys, so both survive the merge). -/
structure Validation where
  basic : ValidationResult
  ai : AIVerdict
  final_valid : Bool
deriving DecidableEq

structure Job where
  company : String
  title : String
  link : String
  snippet : String
  match_analysis : Option MatchAnalysis
  validation : Option Validation
deriving DecidableEq

/-- Read `job.get('match_analysis', \x7b\x7d).get('experience_match', False)`. -/
def Job.experienceMatch (j : Job) : Bool :=
  (j.match_analysis.map MatchAnalysis.experience_match).getD false

/-- Read `match_analysis.get('required_experience', '')`. -/
def Job.requiredExperience (j : Job) : String :=
  (j.match_analysis.map MatchAnalysis.required_experience).getD ""

/-- Read `job.get('match_analysis', \x7b\x7d).get('location_india', True)`. -/
def Job.locationIndia (j : Job) : Bool :=
  (j.match_analysis.map MatchAnalysis.location_india).getD true

/-- Read `j.get('validation', \x7b\x7d).get('confidence_score', 100)` (the merged
validation dict takes `confidence_score` from the AI part). -/
def Job.validationConfidence (j : Job) : Int :=
  match j.validation with
  | some v => v.ai.confidence_score
  | none => 100

/-! ### MatchScorer — `JobSearchAgent.analyze_job_match` (agent.py) -/

/-- Embedding of `JobSearchAgent.analyze_job_match`: post-processing of the model
response.  `min_exp, max_exp` are extracted from `job_snippet + " " +
job_title` before the call; on failure the defaulted verdict carries an
`error` field; on success, absent fields are backfilled deterministically
and no `error` field is added. -/
def analyze_job_match (resp : MatchResponse) (job_title job_snippet : String)
    (user_experience : Int) : MatchAnalysis :=
  let mm := extract_experience_years (job_snippet ++ " " ++ job_title)
  let min_exp := mm.1
  let max_exp := mm.2
  match resp with
  | .failure e =>
    { match_score := 50
      matching_skills := []
      missing_skills := []
      required_experience :=
        if min_exp > 0 then s!"{min_exp}-{max_exp} years" else "Not specified"
      experience_match := decide (user_experience ≥ (min_exp : Int))
      location_india := is_indian_location job_snippet
      recommendation := "Review"
      error := some e }
  | .success r =>
    let required_experience :=
      match r.required_experience with
      | some s =>
        if s == "" then
          if min_exp > 0 || max_exp > 0 then s!"{min_exp}-{max_exp} years"
          else "Not specified"
        else s
      | none =>
        if min_exp > 0 || max_exp > 0 then s!"{min_exp}-{max_exp} years"
        else "Not specified"
    { match_score := r.match_score.getD 50
      matching_skills := r.matching_skills.getD []
      missing_skills := r.missing_skills.getD []
      required_experience := required_experience
      experience_match := r.experience_match.getD (decide (user_experience ≥ (min_exp : Int)))
      location_india := r.location_india.getD (is_indian_location job_snippet)
      recommendation := r.recommendation.getD "Review"
      error := none }

/-! ### ValidationAgent — validation_agent.py -/

/-- Embedding of `ValidationAgent.verify_with_ai`: on failure (raised call or JSON parse
error) returns the optimistic default; on success backfills each absent
required field with `False` (`0` for `confidence_score`) and, when absent,
derives `experience_gap` from `required_experience_range`. -/
def verify_with_ai (resp : AIResponse) (user_experience : Int) : AIVerdict :=
  match resp with
  | .failure e =>
    { is_valid_job := true
      matches_role := true
      matches_company := true
      is_india_location := true
      experience_appropriate := true
      required_experience_range := some "Not specified"
      experience_gap := 0
      is_direct_link := true
      confidence_score := 50
      reasoning := some "Validation error"
      error := some e }
  | .success r =>
    let experience_gap :=
      match r.experience_gap with
      | some g => g
      | none =>
        let mm := extract_experience_years (r.required_experience_range.getD "")
        if mm.1 > 0 then user_experience - (mm.1 : Int) else 0
    { is_valid_job := r.is_valid_job.getD false
      matches_role := r.matches_role.getD false
      matches_company := r.matches_company.getD false
      is_india_location := r.is_india_location.getD false
      experience_appropriate := r.experience_appropriate.getD false
      is_direct_link := r.is_direct_link.getD false
      confidence_score := r.confidence_score.getD 0
      experience_gap := experience_gap
      required_experience_range := r.required_experience_range
      reasoning := r.reasoning
      error := none }

/-- The repeated statement pattern of `validate_job_data`:
`if cond: issues.append(issue); quality_score -= penalty`. -/
def applyCheck (cond : Prop) [Decidable cond] (issue : String) (penalty : Int)
    (r : ValidationResult) : ValidationResult :=
  if cond then
    { r with issues := r.issues ++ [issue], quality_score := r.quality_score - penalty }
  else r

/-- Embedding of `ValidationAgent.validate_job_data`: structural validation with fixed
penalties, in source order. -/
def validate_job_data (job : Job) (user_experience : Int) : ValidationResult :=
  let r : ValidationResult := { is_valid := true, issues := [], quality_score := 100, corrections := [] }
  let r := if ¬ is_valid_job_url job.link then
      { r with is_valid := false,
               issues := r.issues ++ ["Invalid or missing job URL"],
               quality_score := r.quality_score - 30 }
    else r
  let r := applyCheck (job.company = "" ∨ job.company = "N/A")
      "Missing company name" 20 r
  let r := applyCheck (job.title = "" ∨ job.title = "N/A" ∨ job.title.length < 5)
      "Invalid or too short job title" 25 r
  let r := applyCheck (job.snippet = "" ∨ job.snippet.length < 50)
      "Insufficient job description" 15 r
  let snippet_text := job.snippet ++ " " ++ job.title
  let r := applyCheck (snippet_text ≠ "" ∧ ¬ is_indian_location snippet_text)
      "Job location may not be in India" 10 r
  if ¬ job.experienceMatch then
    let mm := extract_experience_years job.requiredExperience
    let min_exp := mm.1
    let max_exp := mm.2
    if min_exp > 0 then
      if user_experience < (min_exp : Int) - 1 then
        applyCheck True s!"Required {min_exp}+ years, user has {user_experience} years" 20 r
      else if user_experience > (max_exp : Int) + 3 then
        applyCheck True s!"Job may be too junior (requires {min_exp}-{max_exp} years)" 15 r
      else r
    else r
  else r

/-- The role prefilter of `validate_job_batch`:
`any(role.lower() in job_title_lower for role in job_roles)`. -/
def matchesAnyRole (job_roles : List String) (title : String) : Bool :=
  job_roles.any (fun role => strIn (pyLower role) (pyLower title))

/-- The combined dict `job['validation']` built in `validate_job_batch`. -/
def mkValidation (basic : ValidationResult) (ai : AIVerdict) : Validation :=
  { basic := basic
    ai := ai
    final_valid :=
      basic.is_valid && decide (basic.quality_score ≥ 40) &&
      ai.is_valid_job && ai.is_india_location && ai.experience_appropriate &&
      decide (ai.confidence_score ≥ 60) }

/-- One iteration of the `validate_job_batch` loop for a single job:
returns the job as left by the iteration (Python mutates the dict in
place) together with whether it is appended to `validated_jobs`. -/
def processJob (oracle : Job → AIResponse) (job_roles : List String)
    (user_experience : Int) (job : Job) : Job × Bool :=
  let basic := validate_job_data job user_experience
  if basic.quality_score < 40 then (job, false)
  else if ¬ matchesAnyRole job_roles job.title then (job, false)
  else
    let ai := verify_with_ai (oracle job) user_experience
    let experience_appropriate := ai.experience_appropriate
    let experience_gap := ai.experience_gap.natAbs
    if experience_gap > 2 ∧ ¬ experience_appropriate then (job, false)
    else
      let v := mkValidation basic ai
      ({ job with validation := some v }, v.final_valid)

/-- Embedding of `ValidationAgent.validate_job_batch`: per-job processing with no
cross-job state, keeping the jobs whose combined verdict is
`final_valid`. -/
def validate_job_batch (oracle : Job → AIResponse) (jobs : List Job)
    (job_roles : List String) (user_experience : Int) : List Job :=
  jobs.filterMap (fun job =>
    let p := processJob oracle job_roles user_experience job
    if p.2 then some p.1 else none)

/-- The state of the caller's `all_jobs` list after `validate_job_batch`
returns (the loop mutates each surviving job in place by attaching
`job['validation']`). -/
def annotatedJobs (oracle : Job → AIResponse) (jobs : List Job)
    (job_roles : List String) (user_experience : Int) : List Job :=
  jobs.map (fun job => (processJob oracle job_roles user_experience job).1)

/-- Recomputation of `final_valid` from the other stored fields of the
verdict — the conjunction of `spec.md` §3 (ValidationVerdict). -/
def recompute_final_valid (v : Validation) : Bool :=
  v.basic.is_valid && decide (v.basic.quality_score ≥ 40) &&
  v.ai.is_valid_job && v.ai.is_india_location && v.ai.experience_appropriate &&
  decide (v.ai.confidence_score ≥ 60)

/-! ### SearchOrchestrator — filtering reasons (agent.py, `search_all_companies`) -/

structure FilteringReasons where
  invalid_url : Int
  not_india_location : Int
  experience_mismatch : Int
  low_confidence : Int
  doesnt_match_role : Int
deriving DecidableEq

/-- The `filtering_reasons` dict of `search_all_companies`, computed over
`all_jobs` as it stands after the batch call (mutated in place), with
`filtered_count = original_count - len(validated_jobs)`. -/
def filtering_reasons_of (all_jobs : List Job) (filtered_count : Int) : FilteringReasons :=
  { invalid_url := (all_jobs.countP (fun j => !is_valid_job_url j.link) : Int)
    not_india_location := (all_jobs.countP (fun j => !j.locationIndia) : Int)
    experience_mismatch := (all_jobs.countP (fun j => !j.experienceMatch) : Int)
    low_confidence := (all_jobs.countP (fun j => decide (j.validationConfidence < 60)) : Int)
    doesnt_match_role := filtered_count }

/-- The reasons computation as executed by `search_all_companies`: run the
batch validation over `all_jobs`, then scan the (mutated) candidate list. -/
def search_filtering_reasons (oracle : Job → AIResponse) (all_jobs : List Job)
    (job_roles : List String) (user_experience : Int) : FilteringReasons :=
  let validated := validate_job_batch oracle all_jobs job_roles user_experience
  let mutated := annotatedJobs oracle all_jobs job_roles user_experience
  filtering_reasons_of mutated ((all_jobs.length : Int) - (validated.length : Int))

/-! ### Concrete fixtures used by witnesses and counterexamples -/

def goodMA : MatchAnalysis :=
  { match_score := 80, matching_skills := ["Python"], missing_skills := [],
    required_experience := "2-5 years", experience_match := true,
    location_india := true, recommendation := "Apply", error := none }

def goodJob : Job :=
  { company := "Acme", title := "software engineer position",
    link := "https://example.com/jobs/123",
    snippet := "Software engineer role in Pune, India. Great opportunity to build systems.",
    match_analysis := some goodMA, validation := none }

def goodRoles : List String := ["software engineer"]

def goodRaw : RawAIVerdict :=
  { is_valid_job := some true, matches_role := some true, matches_company := some true,
    is_india_location := some true, experience_appropriate := some true,
    is_direct_link := some true, confidence_score := some 85, experience_gap := some 0,
    required_experience_range := some "2-5 years", reasoning := some "ok" }

/-- A model that always answers positively with confidence 85. -/
def oGood : Job → AIResponse := fun _ => .success goodRaw

/-- A model answering positively but reporting an experience gap of 5. -/
def oGap : Job → AIResponse := fun _ => .success { goodRaw with experience_gap := some 5 }

/-- A model reporting a gap of 5 and `experience_appropriate = false`. -/
def oVeto : Job → AIResponse :=
  fun _ => .success { goodRaw with experience_gap := some 5, experience_appropriate := some false }

/-- A model whose call (or response parse) always fails. -/
def oFail : Job → AIResponse := fun _ => .failure "boom"

def goodBasic : ValidationResult :=
  { is_valid := true, issues := [], quality_score := 100, corrections := [] }

def goodAI : AIVerdict :=
  { is_valid_job := true, matches_role := true, matches_company := true,
    is_india_location := true, experience_appropriate := true, is_direct_link := true,
    confidence_score := 85, experience_gap := 0,
    required_experience_range := some "2-5 years", reasoning := some "ok", error := none }

def goodOut : Job := { goodJob with validation := some (mkValidation goodBasic goodAI) }

def gapOut : Job :=
  { goodJob with validation := some (mkValidation goodBasic { goodAI with experience_gap := 5 }) }

/-- A job failing every structural check, with a required experience of
`5+ years` against a user with 0 years. -/
def negMA : MatchAnalysis :=
  { match_score := 0, matching_skills := [], missing_skills := [],
    required_experience := "5+ years", experience_match := false,
    location_india := false, recommendation := "Skip", error := none }

def negJob : Job :=
  { company := "", title := "", link := "", snippet := "",
    match_analysis := some negMA, validation := none }

/-- Like `goodJob` but with an empty (invalid) URL. -/
def badUrlJob : Job :=
  { company := "Bad Corp", title := "software engineer position", link := "",
    snippet := "Software engineer role in Pune, India. Great opportunity to build systems.",
    match_analysis := some goodMA, validation := none }

def demoJobs : List Job := [badUrlJob, goodJob]

/-- A parsed AI response with every field absent. -/
def emptyRawAI : RawAIVerdict :=
  ⟨none, none, none, none, none, none, none, none, none, none⟩

/-- A parsed match response with every field absent. -/
def emptyRawMatch : RawMatchAnalysis := ⟨none, none, none, none, none, none, none⟩

example : verify_with_ai (.success goodRaw) 0 = goodAI := by decide
example : validate_job_data goodJob 0 = goodBasic := by decide
example : (validate_job_data negJob 0).quality_score = -20 := by decide
example : validate_job_batch oGood [goodJob] goodRoles 0 = [goodOut] := by decide
example : validate_job_batch oGood demoJobs goodRoles 0 = [goodOut] := by decide
example : validate_job_batch oGap [goodJob] goodRoles 0 = [gapOut] := by decide
example : validate_job_batch oFail [goodJob] goodRoles 0 = [] := by decide
example : search_filtering_reasons oGood demoJobs goodRoles 0 = ⟨1, 0, 0, 0, 1⟩ := by decide

example : extract_experience_years "3-5 years experience" = (3, 5) := by decide
example : extract_experience_years "5+ years" = (5, 10) := by decide
example : extract_experience_years "fresher" = (0, 2) := by decide
example : extract_experience_years "senior role" = (0, 0) := by decide
example : is_valid_job_url "https://example.com/jobs/123" = true := by decide
example : is_valid_job_url "https://example.com/about" = false := by decide
example : is_valid_job_url "" = false := by decide
example : is_indian_location "Great role in Pune" = true := by decide

/-! ### Helper lemmas about the batch loop -/

/-- Each loop iteration either leaves the job untouched and rejected, or
attaches the combined verdict and reports its `final_valid` flag. -/
lemma processJob_spec (oracle : Job → AIResponse) (roles : List String) (ue : Int) (job : Job) :
    processJob oracle roles ue job = (job, false) ∨
    processJob oracle roles ue job =
      ({ job with validation := some (mkValidation (validate_job_data job ue)
            (verify_with_ai (oracle job) ue)) },
        (mkValidation (validate_job_data job ue) (verify_with_ai (oracle job) ue)).final_valid) := by
  unfold processJob
  by_cases h1 : (validate_job_data job ue).quality_score < 40
  · left; simp [h1]
  · by_cases h2 : matchesAnyRole roles job.title
    · by_cases h3 : 2 < (verify_with_ai (oracle job) ue).experience_gap.natAbs ∧
          (verify_with_ai (oracle job) ue).experience_appropriate = false
      · left; simp [h1, h2, h3]
      · right; simp [h1, h2, h3]
    · left; simp [h1, h2]

lemma validate_job_batch_nil (oracle : Job → AIResponse) (roles : List String) (ue : Int) :
    validate_job_batch oracle [] roles ue = [] := rfl

lemma validate_job_batch_cons (oracle : Job → AIResponse) (roles : List String) (ue : Int)
    (job : Job) (jobs : List Job) :
    validate_job_batch oracle (job :: jobs) roles ue =
      if (processJob oracle roles ue job).2
      then (processJob oracle roles ue job).1 :: validate_job_batch oracle jobs roles ue
      else validate_job_batch oracle jobs roles ue := by
  simp only [validate_job_batch, List.filterMap_cons]
  by_cases h : (processJob oracle roles ue job).2 <;> simp [h]

/-- A job as seen without its `validation` key (the batch mutates only that
key on the candidates it returns). -/
def stripValidation (j : Job) : Job := { j with validation := none }

/-- Every verdict stored on a job returned by the batch is a
`mkValidation` whose `final_valid` flag is true. -/
lemma batch_mem_spec (oracle : Job → AIResponse) (jobs : List Job) (roles : List String) (ue : Int) :
    ∀ j ∈ validate_job_batch oracle jobs roles ue, ∃ basic ai,
      j.validation = some (mkValidation basic ai) ∧ (mkValidation basic ai).final_valid = true := by
  induction jobs with
  | nil => simp [validate_job_batch]
  | cons job rest ih =>
    rw [validate_job_batch_cons]
    by_cases h2 : (processJob oracle roles ue job).2
    · simp only [if_pos h2]
      intro j hj
      rcases List.mem_cons.mp hj with hj | hj
      · rcases processJob_spec oracle roles ue job with hc | hc
        · rw [hc] at h2; simp at h2
        · subst hj
          rw [hc] at h2 ⊢
          exact ⟨_, _, rfl, h2⟩
      · exact ih j hj
    · simp only [if_neg h2]
      exact ih

/-- Modulo the mutated `validation` key, the batch output is a sublist of
its input. -/
lemma batch_strip_sublist (oracle : Job → AIResponse) (jobs : List Job)
    (roles : List String) (ue : Int) :
    ((validate_job_batch oracle jobs roles ue).map stripValidation).Sublist
      (jobs.map stripValidation) := by
  induction jobs with
  | nil => simp [validate_job_batch]
  | cons job rest ih =>
    rw [validate_job_batch_cons]
    by_cases h2 : (processJob oracle roles ue job).2
    · simp only [if_pos h2, List.map_cons]
      rcases processJob_spec oracle roles ue job with hc | hc
      · rw [hc] at h2; simp at h2
      · rw [hc]
        exact List.Sublist.cons₂ _ ih
    · simp only [if_neg h2, List.map_cons]
      exact List.Sublist.cons _ ih

/-- Claim C1: for every job to which `validate_job_batch` attaches a
validation verdict — both the jobs it returns and the candidates it
mutated in place — the stored `final_valid` flag equals the conjunction of
the six fields of that verdict (structural `is_valid`, `quality_score ≥
40`, `is_valid_job`, `is_india_location`, `experience_appropriate`,
`confidence_score ≥ 60`), i.e. recomputing `recompute_final_valid` from
the stored fields reproduces the stored boolean. -/
theorem C1_final_valid_derived (oracle : Job → AIResponse) (jobs : List Job)
    (roles : List String) (ue : Int) :
    (∀ j ∈ validate_job_batch oracle jobs roles ue, ∀ v, j.validation = some v →
        v.final_valid = recompute_final_valid v)
    ∧ ((∀ j ∈ jobs, j.validation = none) →
        ∀ j ∈ annotatedJobs oracle jobs roles ue, ∀ v, j.validation = some v →
          v.final_valid = recompute_final_valid v) := by
  constructor
  · intro j hj v hv
    obtain ⟨basic, ai, hval, _⟩ := batch_mem_spec oracle jobs roles ue j hj
    rw [hv] at hval
    obtain rfl : v = mkValidation basic ai := Option.some_injective _ hval
    rfl
  · intro hclean j hj v hv
    rcases List.mem_map.mp hj with ⟨job, hjob, rfl⟩
    rcases processJob_spec oracle roles ue job with hc | hc
    · rw [hc] at hv
      rw [hclean job hjob] at hv
      exact absurd hv (by simp)
    · rw [hc] at hv
      obtain rfl : v = mkValidation (validate_job_data job ue) (verify_with_ai (oracle job) ue) :=
        (Option.some_injective _ hv).symm
      rfl

/-- Claim C1 witness: the invariant instantiated on a concrete run. -/
theorem C1_witness :
    (mkValidation goodBasic goodAI).final_valid =
      recompute_final_valid (mkValidation goodBasic goodAI) :=
  (C1_final_valid_derived oGood [goodJob] goodRoles 0).1 goodOut (by decide)
    (mkValidation goodBasic goodAI) rfl

/-- Claim C2: `validate_job_batch` returns a subsequence of its input list
(up to the `validation` key it attaches in place), hence of length at most
`len(jobs)`, and every returned job carries a verdict with
`final_valid = true`. -/
theorem C2_batch_subsequence (oracle : Job → AIResponse) (jobs : List Job)
    (roles : List String) (ue : Int) :
    ((validate_job_batch oracle jobs roles ue).map stripValidation).Sublist
      (jobs.map stripValidation)
    ∧ (validate_job_batch oracle jobs roles ue).length ≤ jobs.length
    ∧ ∀ j ∈ validate_job_batch oracle jobs roles ue,
        ∃ v, j.validation = some v ∧ v.final_valid = true := by
  refine ⟨batch_strip_sublist oracle jobs roles ue, ?_, ?_⟩
  · have h := (batch_strip_sublist oracle jobs roles ue).length_le
    simpa using h
  · intro j hj
    obtain ⟨basic, ai, hval, hfv⟩ := batch_mem_spec oracle jobs roles ue j hj
    exact ⟨_, hval, hfv⟩

/-- Claim C2 witness: the membership part instantiated on a concrete run. -/
theorem C2_witness : ∃ v, goodOut.validation = some v ∧ v.final_valid = true :=
  (C2_batch_subsequence oGood [goodJob] goodRoles 0).2.2 goodOut (by decide)

lemma applyCheck_is_valid (c : Prop) [Decidable c] (i : String) (p : Int) (r : ValidationResult) :
    (applyCheck c i p r).is_valid = r.is_valid := by
  unfold applyCheck; split_ifs <;> rfl

lemma applyCheck_quality (c : Prop) [Decidable c] (i : String) (p : Int) (r : ValidationResult) :
    (applyCheck c i p r).quality_score = r.quality_score - (if c then p else 0) := by
  unfold applyCheck; split_ifs <;> simp

lemma applyCheck_issues (c : Prop) [Decidable c] (i : String) (p : Int) (r : ValidationResult) :
    (applyCheck c i p r).issues = r.issues ++ (if c then [i] else []) := by
  unfold applyCheck; split_ifs <;> simp

set_option maxHeartbeats 2000000 in
/-- Claim C3: `validate_job_data` starts from `quality_score = 100`,
`is_valid = true`, and applies the fixed penalties in order (invalid URL
−30 and `is_valid = false`; missing company −20; short title −25; short
snippet −15; India heuristic failure on snippet+title −10; with
`experience_match` false and a positive parsed minimum `mn`: shortfall of
more than 1 year below `mn` −20, or excess of more than 3 years above the
maximum −15), each failed check appending exactly one issue string; the
score is not floored at 0 and goes to −20 on a fully failing job. -/
theorem C3_structural_penalties (job : Job) (ue : Int) (mn mx : Nat)
    (hex : extract_experience_years job.requiredExperience = (mn, mx)) :
    (validate_job_data job ue).is_valid = is_valid_job_url job.link
    ∧ (validate_job_data job ue).quality_score =
        100 - (if ¬ is_valid_job_url job.link then 30 else 0)
            - (if job.company = "" ∨ job.company = "N/A" then 20 else 0)
            - (if job.title = "" ∨ job.title = "N/A" ∨ job.title.length < 5 then 25 else 0)
            - (if job.snippet = "" ∨ job.snippet.length < 50 then 15 else 0)
            - (if job.snippet ++ " " ++ job.title ≠ ""
                  ∧ ¬ is_indian_location (job.snippet ++ " " ++ job.title) then 10 else 0)
            - (if ¬ job.experienceMatch then
                 if mn > 0 then
                   if ue < (mn : Int) - 1 then 20
                   else if ue > (mx : Int) + 3 then 15 else 0
                 else 0
               else 0)
    ∧ (validate_job_data job ue).issues =
        (if ¬ is_valid_job_url job.link then ["Invalid or missing job URL"] else [])
        ++ (if job.company = "" ∨ job.company = "N/A" then ["Missing company name"] else [])
        ++ (if job.title = "" ∨ job.title = "N/A" ∨ job.title.length < 5 then
              ["Invalid or too short job title"] else [])
        ++ (if job.snippet = "" ∨ job.snippet.length < 50 then
              ["Insufficient job description"] else [])
        ++ (if job.snippet ++ " " ++ job.title ≠ ""
              ∧ ¬ is_indian_location (job.snippet ++ " " ++ job.title) then
              ["Job location may not be in India"] else [])
        ++ (if ¬ job.experienceMatch then
              if mn > 0 then
                if ue < (mn : Int) - 1 then [s!"Required {mn}+ years, user has {ue} years"]
                else if ue > (mx : Int) + 3 then
                  [s!"Job may be too junior (requires {mn}-{mx} years)"]
                else []
              else []
            else [])
    ∧ (validate_job_data negJob 0).quality_score = -20
    ∧ (validate_job_data negJob 0).issues.length = 6 := by
  refine ⟨?_, ?_, ?_, by decide, by decide⟩
  · simp only [validate_job_data, hex, apply_ite ValidationResult.is_valid, applyCheck_is_valid]
    split_ifs <;> simp_all
  · simp only [validate_job_data, hex, apply_ite ValidationResult.quality_score, applyCheck_quality]
    split_ifs <;> simp_all
  · simp only [validate_job_data, hex, apply_ite ValidationResult.issues, applyCheck_issues]
    split_ifs <;> simp_all

/-- Claim C3 witness: the pipeline instantiated on the fully failing job
(`5+ years` required against 0 years of experience). -/
theorem C3_witness : (validate_job_data negJob 0).quality_score = -20 :=
  (C3_structural_penalties negJob 0 5 10 (by decide)).2.2.2.1

/-- Claim C4: a job whose AI verdict reports `abs(experience_gap) > 2` with
`experience_appropriate = false` is never kept by the batch loop; and when
`experience_appropriate` is true the gap veto does not apply — a concrete
job with gap 5 and a positive verdict is returned. -/
theorem C4_gap_veto :
    (∀ (oracle : Job → AIResponse) (roles : List String) (ue : Int) (job : Job),
        (verify_with_ai (oracle job) ue).experience_gap.natAbs > 2 →
        (verify_with_ai (oracle job) ue).experience_appropriate = false →
        (processJob oracle roles ue job).2 = false)
    ∧ validate_job_batch oGap [goodJob] goodRoles 0 = [gapOut]
    ∧ (mkValidation goodBasic { goodAI with experience_gap := 5 }).ai.experience_gap.natAbs > 2
    ∧ (mkValidation goodBasic { goodAI with experience_gap := 5 }).ai.experience_appropriate = true := by
  refine ⟨?_, by decide, by decide, by decide⟩
  intro oracle roles ue job hgap happ
  rcases processJob_spec oracle roles ue job with hc | hc
  · rw [hc]
  · rw [hc]
    simp only [mkValidation, happ]
    simp

/-- Claim C4 witness: the veto applied to a concrete job whose AI verdict
has gap 5 and `experience_appropriate = false`. -/
theorem C4_witness : (processJob oVeto goodRoles 0 goodJob).2 = false :=
  C4_gap_veto.1 oVeto goodRoles 0 goodJob (by decide) (by decide)

/-- Claim C5 counterexample: when the model response parses but every
required field is missing, `analyze_job_match` does return the defaulted
`match_score = 50` / `recommendation = "Review"` verdict, but it carries
NO `error` field — refuting the claim that a missing-required-fields
outcome carries an `error` field. -/
theorem C5_counterexample :
    (analyze_job_match (.success emptyRawMatch) "engineer" "desc" 0).match_score = 50
    ∧ (analyze_job_match (.success emptyRawMatch) "engineer" "desc" 0).recommendation = "Review"
    ∧ (analyze_job_match (.success emptyRawMatch) "engineer" "desc" 0).error = none := by
  decide

/-- Claim C5 (amended): when the model call raises or the response fails to
parse, `analyze_job_match` returns (never raises) the defaulted verdict
with `match_score = 50`, `recommendation = "Review"` and an `error` field;
when the response parses but required fields are missing, each missing
field is backfilled (`match_score → 50`, skills → `[]`,
`recommendation → "Review"`) with no `error` field; in every outcome all
four required fields are present (the result is a total record). -/
theorem C5_amended (e title snippet : String) (ue : Int) (r : RawMatchAnalysis) :
    ((analyze_job_match (.failure e) title snippet ue).match_score = 50
      ∧ (analyze_job_match (.failure e) title snippet ue).matching_skills = []
      ∧ (analyze_job_match (.failure e) title snippet ue).missing_skills = []
      ∧ (analyze_job_match (.failure e) title snippet ue).recommendation = "Review"
      ∧ (analyze_job_match (.failure e) title snippet ue).error = some e)
    ∧ ((analyze_job_match (.success r) title snippet ue).error = none
      ∧ (r.match_score = none → (analyze_job_match (.success r) title snippet ue).match_score = 50)
      ∧ (r.matching_skills = none →
          (analyze_job_match (.success r) title snippet ue).matching_skills = [])
      ∧ (r.missing_skills = none →
          (analyze_job_match (.success r) title snippet ue).missing_skills = [])
      ∧ (r.recommendation = none →
          (analyze_job_match (.success r) title snippet ue).recommendation = "Review")) := by
  refine ⟨⟨rfl, rfl, rfl, rfl, rfl⟩, rfl, ?_, ?_, ?_, ?_⟩ <;>
    (intro h; simp [analyze_job_match, h])

/-- Claim C5 witness: the amended claim instantiated at a failing call and
at a parsed-but-empty response. -/
theorem C5_witness :
    (analyze_job_match (.failure "down") "engineer" "desc" 0).match_score = 50
    ∧ (analyze_job_match (.success emptyRawMatch) "engineer" "desc" 0).match_score = 50 := by
  have h := C5_amended "down" "engineer" "desc" 0 emptyRawMatch
  exact ⟨h.1.1, h.2.2.1 rfl⟩

/-- Claim C6: whenever the model call or JSON parse in `verify_with_ai`
raises, the operation returns (never raises) the optimistic default
verdict: `confidence_score = 50`, `experience_gap = 0`, an `error` field
attached, and all six boolean judgments true. -/
theorem C6_optimistic_failure_default (e : String) (ue : Int) :
    verify_with_ai (.failure e) ue =
      { is_valid_job := true, matches_role := true, matches_company := true,
        is_india_location := true, experience_appropriate := true, is_direct_link := true,
        confidence_score := 50, experience_gap := 0,
        required_experience_range := some "Not specified",
        reasoning := some "Validation error", error := some e } := rfl

/-- Claim C8: `extract_experience_years` on the four documented examples,
plus two precedence checks (a range pattern beats the fresher rule; a
single-value pattern beats the fresher rule; the first example itself
shows the range pattern beating the single-value one). -/
theorem C8_extract_experience_examples :
    extract_experience_years "3-5 years experience" = (3, 5)
    ∧ extract_experience_years "5+ years" = (5, 10)
    ∧ extract_experience_years "fresher" = (0, 2)
    ∧ extract_experience_years "senior role" = (0, 0)
    ∧ extract_experience_years "fresher with 2-4 yrs" = (2, 4)
    ∧ extract_experience_years "fresher, 3 years" = (3, 8) := by
  decide

/-- Claim C9: a job whose `verify_with_ai` call fails can never appear in
the batch's returned set — the failure default's `confidence_score = 50`
is below the `final_valid` threshold of 60, so the job is dropped even
though every defaulted boolean judgment is true. -/
theorem C9_failure_excluded (oracle : Job → AIResponse) (roles : List String) (ue : Int)
    (job : Job) (e : String) (h : oracle job = .failure e) :
    (processJob oracle roles ue job).2 = false
    ∧ validate_job_batch oracle [job] roles ue = []
    ∧ (verify_with_ai (oracle job) ue).confidence_score = 50
    ∧ (verify_with_ai (oracle job) ue).is_valid_job = true
    ∧ (verify_with_ai (oracle job) ue).matches_role = true
    ∧ (verify_with_ai (oracle job) ue).matches_company = true
    ∧ (verify_with_ai (oracle job) ue).is_india_location = true
    ∧ (verify_with_ai (oracle job) ue).experience_appropriate = true
    ∧ (verify_with_ai (oracle job) ue).is_direct_link = true := by
  have hp2 : (processJob oracle roles ue job).2 = false := by
    rcases processJob_spec oracle roles ue job with hc | hc
    · rw [hc]
    · rw [hc]
      simp [mkValidation, h, verify_with_ai]
  refine ⟨hp2, ?_, ?_, ?_, ?_, ?_, ?_, ?_, ?_⟩
  · rw [validate_job_batch_cons, hp2]
    simp [validate_job_batch]
  all_goals simp [h, verify_with_ai]

/-- Claim C9 witness: a concrete job against an always-failing validator is
dropped from the batch output. -/
theorem C9_witness : validate_job_batch oFail [goodJob] goodRoles 0 = [] :=
  (C9_failure_excluded oFail goodRoles 0 goodJob "boom" rfl).2.1

/-- Claim C10: when `verify_with_ai` successfully parses the model JSON but
one of the seven required fields is absent, that field is backfilled to
`False` (`0` for `confidence_score`) — the pessimistic opposite of the
failure default — and no `error` field is attached. -/
theorem C10_success_pessimistic_backfill (r : RawAIVerdict) (ue : Int) :
    (verify_with_ai (.success r) ue).error = none
    ∧ (r.is_valid_job = none → (verify_with_ai (.success r) ue).is_valid_job = false)
    ∧ (r.matches_role = none → (verify_with_ai (.success r) ue).matches_role = false)
    ∧ (r.matches_company = none → (verify_with_ai (.success r) ue).matches_company = false)
    ∧ (r.is_india_location = none → (verify_with_ai (.success r) ue).is_india_location = false)
    ∧ (r.experience_appropriate = none →
        (verify_with_ai (.success r) ue).experience_appropriate = false)
    ∧ (r.is_direct_link = none → (verify_with_ai (.success r) ue).is_direct_link = false)
    ∧ (r.confidence_score = none → (verify_with_ai (.success r) ue).confidence_score = 0) := by
  refine ⟨rfl, ?_, ?_, ?_, ?_, ?_, ?_, ?_⟩ <;> (intro h; simp [verify_with_ai, h])

/-- The batch loop never changes a candidate's `link` or `match_analysis`
(it only attaches `validation`). -/
lemma processJob_preserves (oracle : Job → AIResponse) (roles : List String) (ue : Int) (job : Job) :
    ((processJob oracle roles ue job).1).link = job.link
    ∧ ((processJob oracle roles ue job).1).match_analysis = job.match_analysis := by
  rcases processJob_spec oracle roles ue job with hc | hc <;> rw [hc] <;> exact ⟨rfl, rfl⟩

lemma countP_map_processJob (oracle : Job → AIResponse) (roles : List String) (ue : Int)
    (p : Job → Bool) (hp : ∀ job, p (processJob oracle roles ue job).1 = p job) :
    ∀ jobs : List Job,
      (jobs.map (fun j => (processJob oracle roles ue j).1)).countP p = jobs.countP p := by
  intro jobs
  induction jobs with
  | nil => rfl
  | cons job rest ih => simp [List.countP_cons, hp job, ih]

/-- Claim C7 counterexample: a two-job run in which one job is filtered for
an invalid URL.  The code reports `"Doesn't Match Role" = filtered_count
= 1`, not the residual `filtered_count - other_reasons = 1 - 1 = 0` the
claim asserts. -/
theorem C7_counterexample :
    (search_filtering_reasons oGood demoJobs goodRoles 0).doesnt_match_role = 1
    ∧ (search_filtering_reasons oGood demoJobs goodRoles 0).invalid_url = 1
    ∧ (search_filtering_reasons oGood demoJobs goodRoles 0).not_india_location = 0
    ∧ (search_filtering_reasons oGood demoJobs goodRoles 0).experience_mismatch = 0
    ∧ (search_filtering_reasons oGood demoJobs goodRoles 0).low_confidence = 0
    ∧ (demoJobs.length : Int) - ((validate_job_batch oGood demoJobs goodRoles 0).length : Int) = 1
    ∧ (search_filtering_reasons oGood demoJobs goodRoles 0).doesnt_match_role ≠
        ((demoJobs.length : Int) - ((validate_job_batch oGood demoJobs goodRoles 0).length : Int))
        - ((search_filtering_reasons oGood demoJobs goodRoles 0).invalid_url
           + (search_filtering_reasons oGood demoJobs goodRoles 0).not_india_location
           + (search_filtering_reasons oGood demoJobs goodRoles 0).experience_mismatch
           + (search_filtering_reasons oGood demoJobs goodRoles 0).low_confidence) := by
  decide

/-- Claim C7 (amended): the `"Doesn't Match Role"` category equals the
TOTAL filtered count (`original_count - validated_count`), not reduced by
the other reason counts; the URL / India / experience categories are
independent re-scans of the full candidate set (equal to re-scans of the
original input, since the batch only attaches `validation`). -/
theorem C7_amended (oracle : Job → AIResponse) (jobs : List Job)
    (roles : List String) (ue : Int) :
    (search_filtering_reasons oracle jobs roles ue).doesnt_match_role =
      (jobs.length : Int) - ((validate_job_batch oracle jobs roles ue).length : Int)
    ∧ (search_filtering_reasons oracle jobs roles ue).invalid_url =
      ((jobs.countP (fun j => !is_valid_job_url j.link) : Nat) : Int)
    ∧ (search_filtering_reasons oracle jobs roles ue).not_india_location =
      ((jobs.countP (fun j => !j.locationIndia) : Nat) : Int)
    ∧ (search_filtering_reasons oracle jobs roles ue).experience_mismatch =
      ((jobs.countP (fun j => !j.experienceMatch) : Nat) : Int) := by
  refine ⟨rfl, ?_, ?_, ?_⟩ <;>
    simp only [search_filtering_reasons, filtering_reasons_of, annotatedJobs]
  · rw [countP_map_processJob oracle roles ue _
      (fun job => by rw [(processJob_preserves oracle roles ue job).1])]
  · rw [countP_map_processJob oracle roles ue _
      (fun job => by simp [Job.locationIndia, (processJob_preserves oracle roles ue job).2])]
  · rw [countP_map_processJob oracle roles ue _
      (fun job => by simp [Job.experienceMatch, (processJob_preserves oracle roles ue job).2])]

/-- Claim C10 witness: the backfill instantiated at a parsed response with
every field absent. -/
theorem C10_witness :
    (verify_with_ai (.success emptyRawAI) 0).is_valid_job = false
    ∧ (verify_with_ai (.success emptyRawAI) 0).confidence_score = 0
    ∧ (verify_with_ai (.success emptyRawAI) 0).error = none := by
  have h := C10_success_pessimistic_backfill emptyRawAI 0
  exact ⟨h.2.1 rfl, h.2.2.2.2.2.2.2 rfl, h.1⟩

end JobSearch
